import Mathlib

/-!
Verification of the contour VT core against its specification.

The definitions below are shallow embeddings of the C++ sources:
`src/terminal/Sequencer.cpp`, `src/terminal/Screen.h` and the sixel
parser/image-builder translation unit.  Where a definition models code whose
body is not among the sources (Screen.cpp, Sequence.h, Color.h), its doc
comment starts with `Modelled from the spec:` and names the missing part.
-/

namespace Contour

/-- RGB color triple, from `RGBColor` (components are bytes in the source). -/
structure RGBColor where
  red : Nat
  green : Nat
  blue : Nat
deriving DecidableEq

/-- Modelled from the spec: `Color.h` is not among the sources.  A tagged
color value: indexed/default/RGB plus the default-constructed `Color {}`
(undefined) and the bright-palette variant, as used by `dispatchSGR`. -/
inductive Color where
  | undefined
  | indexed (n : Nat)
  | bright (n : Nat)
  | defaultColor
  | rgb (r g b : Nat)
deriving DecidableEq

/-- Modelled from the spec: the `static_cast<IndexedColor>` in
`impl::parseColor`; the palette has 256 indexed entries, so the cast to the
byte-sized enum reduces the value modulo 256. -/
def mkIndexedColor (v : Nat) : Color :=
  Color.indexed (v % 256)

/-- Parameter lists of a `Sequence`: each parameter is the list of its value
followed by its sub-parameters, exactly as built by `Sequencer::param`. -/
abbrev Params := List (List Nat)

/-- `Sequence::parameterCount()`. -/
def parameterCount (ps : Params) : Nat := ps.length

/-- Modelled from the spec: `Sequence.h` is not among the sources.
`Sequence::param(i)` reads the first entry of parameter `i`. -/
def paramAt (ps : Params) (i : Nat) : Nat :=
  ((ps.getD i []).headD 0)

/-- Modelled from the spec: `Sequence::param_or(i, default)`. -/
def paramOr (ps : Params) (i : Nat) (d : Nat) : Nat :=
  if i < ps.length then paramAt ps i else d

/-- Modelled from the spec: `Sequence::subParameterCount(i)` is the number of
entries of parameter `i` beyond its leading value. -/
def subParameterCount (ps : Params) (i : Nat) : Nat :=
  (ps.getD i []).length - 1

/-- Modelled from the spec: `Sequence::subparam(i, j)` reads sub-parameter
`j` of parameter `i`. -/
def subparam (ps : Params) (i j : Nat) : Nat :=
  (ps.getD i []).getD (j + 1) 0

/-- The screen operations named by `Sequencer::executeControlFunction` for C0
control codes (each tag is the `Screen` member the code calls). -/
inductive C0Op where
  | bell
  | backspace
  | moveCursorToNextTab
  | linefeed
  | index
  | moveCursorToBeginOfLine
  | saveCursor
  | restoreCursor
  | unsupported
deriving DecidableEq

/-- `Sequencer::executeControlFunction`: dispatch of a C0 byte to a screen
operation (LF at 0x0A, VT at 0x0B, FF at 0x0C, CR at 0x0D). -/
def executeControlFunction (c0 : Nat) : C0Op :=
  if c0 = 0x07 then C0Op.bell
  else if c0 = 0x08 then C0Op.backspace
  else if c0 = 0x09 then C0Op.moveCursorToNextTab
  else if c0 = 0x0A then C0Op.linefeed
  else if c0 = 0x0B then C0Op.index
  else if c0 = 0x0C then C0Op.index
  else if c0 = 0x0D then C0Op.moveCursorToBeginOfLine
  else if c0 = 0x37 then C0Op.saveCursor
  else if c0 = 0x38 then C0Op.restoreCursor
  else C0Op.unsupported

/-- The C0 function identifiers of the registry rows handled in
`Sequencer::apply` (cases BEL..CR). -/
inductive C0Func where
  | BEL
  | BS
  | TAB
  | LF
  | VT
  | FF
  | CR
deriving DecidableEq

/-- `Sequencer::apply`, C0 cases: LF runs `linefeed`, while VT falls through
to FF which runs `index`. -/
def applyC0 (f : C0Func) : C0Op :=
  match f with
  | C0Func.BEL => C0Op.bell
  | C0Func.BS => C0Op.backspace
  | C0Func.TAB => C0Op.moveCursorToNextTab
  | C0Func.LF => C0Op.linefeed
  | C0Func.VT => C0Op.index
  | C0Func.FF => C0Op.index
  | C0Func.CR => C0Op.moveCursorToBeginOfLine

/-- Compatibility branch of `impl::parseColor`: color forms using `;`
separators (`5;N` indexed, `2;R;G;B` RGB).  Translated verbatim from the
source; in particular the guard of the indexed form is `if (i <= 255)`,
which tests the parameter index `i`, not the parsed value. -/
def parseColorCompat (ps : Params) (i : Nat) : Color × Nat :=
  if i + 1 < parameterCount ps then
    let i1 := i + 1
    let mode := paramAt ps i1
    if mode = 5 then
      if i1 + 1 < parameterCount ps then
        let i2 := i1 + 1
        let value := paramAt ps i2
        if i2 ≤ 255 then (mkIndexedColor value, i2)
        else (Color.undefined, i2 + 1)
      else (Color.undefined, i1 + 1)
    else if mode = 2 then
      if i1 + 3 < parameterCount ps then
        let r := paramAt ps (i1 + 1)
        let g := paramAt ps (i1 + 2)
        let b := paramAt ps (i1 + 3)
        let i4 := i1 + 3
        if r ≤ 255 ∧ g ≤ 255 ∧ b ≤ 255 then (Color.rgb r g b, i4)
        else (Color.undefined, i4 + 1)
      else (Color.undefined, i1 + 1)
    else (Color.undefined, i1 + 1)
  else (Color.undefined, i + 1)

/-- `impl::parseColor(Sequence const&, size_t* pi)`: parses a color
specification at parameter index `i`, returning the color and the updated
`*pi`.  First the sub-parameter (colon) forms `:2:[:]R:G:B` and `:5:P`; on
any failure it falls through to the `;`-separated compatibility branch. -/
def parseColor (ps : Params) (i : Nat) : Color × Nat :=
  if 1 ≤ subParameterCount ps i then
    match subparam ps i 0 with
    | 2 =>
      let len := subParameterCount ps i
      if len = 4 ∨ len = 5 then
        let r := subparam ps i (len - 3)
        let g := subparam ps i (len - 2)
        let b := subparam ps i (len - 1)
        if r ≤ 255 ∧ g ≤ 255 ∧ b ≤ 255 then (Color.rgb r g b, i + 1)
        else parseColorCompat ps i
      else parseColorCompat ps i
    | 5 =>
      if subparam ps i 1 ≤ 255 then (mkIndexedColor (subparam ps i 1), i + 1)
      else parseColorCompat ps i
    | _ => parseColorCompat ps i
  else parseColorCompat ps i

/-- The `GraphicsRendition` values passed to `Screen::setGraphicsRendition`
by `impl::dispatchSGR`. -/
inductive GraphicsRendition where
  | Reset
  | Bold
  | Faint
  | Italic
  | Underline
  | Blinking
  | Inverse
  | Hidden
  | CrossedOut
  | DoublyUnderlined
  | CurlyUnderlined
  | DottedUnderline
  | DashedUnderline
  | Normal
  | NoItalic
  | NoUnderline
  | NoBlinking
  | NoInverse
  | NoHidden
  | NoCrossedOut
  | Framed
  | Overline
  | NoFramed
  | NoOverline
deriving DecidableEq

/-- A screen call made by `impl::dispatchSGR` (one of `setForegroundColor`,
`setBackgroundColor`, `setUnderlineColor`, `setGraphicsRendition`). -/
inductive SGROp where
  | setForeground (c : Color)
  | setBackground (c : Color)
  | setUnderline (c : Color)
  | rendition (g : GraphicsRendition)
deriving DecidableEq

/-- One iteration of the `impl::dispatchSGR` loop at parameter index `i`:
the emitted screen calls and the next loop index (after the `++i`).  The
named ANSI palette constants `IndexedColor::Black..White` and
`BrightColor::Black..White` are the indices 0..7 of their palettes
(Color.h is not among the sources; spec §3: 256 indexed entries). -/
def sgrStep (ps : Params) (i : Nat) : List SGROp × Nat :=
  match paramAt ps i with
  | 0 => ([SGROp.rendition GraphicsRendition.Reset], i + 1)
  | 1 => ([SGROp.rendition GraphicsRendition.Bold], i + 1)
  | 2 => ([SGROp.rendition GraphicsRendition.Faint], i + 1)
  | 3 => ([SGROp.rendition GraphicsRendition.Italic], i + 1)
  | 4 =>
    (if subParameterCount ps i = 1 then
      match subparam ps i 0 with
      | 0 => [SGROp.rendition GraphicsRendition.NoUnderline]
      | 1 => [SGROp.rendition GraphicsRendition.Underline]
      | 2 => [SGROp.rendition GraphicsRendition.DoublyUnderlined]
      | 3 => [SGROp.rendition GraphicsRendition.CurlyUnderlined]
      | 4 => [SGROp.rendition GraphicsRendition.DottedUnderline]
      | 5 => [SGROp.rendition GraphicsRendition.DashedUnderline]
      | _ => [SGROp.rendition GraphicsRendition.Underline]
    else [SGROp.rendition GraphicsRendition.Underline], i + 1)
  | 5 => ([SGROp.rendition GraphicsRendition.Blinking], i + 1)
  | 7 => ([SGROp.rendition GraphicsRendition.Inverse], i + 1)
  | 8 => ([SGROp.rendition GraphicsRendition.Hidden], i + 1)
  | 9 => ([SGROp.rendition GraphicsRendition.CrossedOut], i + 1)
  | 21 => ([SGROp.rendition GraphicsRendition.DoublyUnderlined], i + 1)
  | 22 => ([SGROp.rendition GraphicsRendition.Normal], i + 1)
  | 23 => ([SGROp.rendition GraphicsRendition.NoItalic], i + 1)
  | 24 => ([SGROp.rendition GraphicsRendition.NoUnderline], i + 1)
  | 25 => ([SGROp.rendition GraphicsRendition.NoBlinking], i + 1)
  | 27 => ([SGROp.rendition GraphicsRendition.NoInverse], i + 1)
  | 28 => ([SGROp.rendition GraphicsRendition.NoHidden], i + 1)
  | 29 => ([SGROp.rendition GraphicsRendition.NoCrossedOut], i + 1)
  | 30 => ([SGROp.setForeground (Color.indexed 0)], i + 1)
  | 31 => ([SGROp.setForeground (Color.indexed 1)], i + 1)
  | 32 => ([SGROp.setForeground (Color.indexed 2)], i + 1)
  | 33 => ([SGROp.setForeground (Color.indexed 3)], i + 1)
  | 34 => ([SGROp.setForeground (Color.indexed 4)], i + 1)
  | 35 => ([SGROp.setForeground (Color.indexed 5)], i + 1)
  | 36 => ([SGROp.setForeground (Color.indexed 6)], i + 1)
  | 37 => ([SGROp.setForeground (Color.indexed 7)], i + 1)
  | 38 =>
    let ci := parseColor ps i
    ([SGROp.setForeground ci.1], ci.2 + 1)
  | 39 => ([SGROp.setForeground Color.defaultColor], i + 1)
  | 40 => ([SGROp.setBackground (Color.indexed 0)], i + 1)
  | 41 => ([SGROp.setBackground (Color.indexed 1)], i + 1)
  | 42 => ([SGROp.setBackground (Color.indexed 2)], i + 1)
  | 43 => ([SGROp.setBackground (Color.indexed 3)], i + 1)
  | 44 => ([SGROp.setBackground (Color.indexed 4)], i + 1)
  | 45 => ([SGROp.setBackground (Color.indexed 5)], i + 1)
  | 46 => ([SGROp.setBackground (Color.indexed 6)], i + 1)
  | 47 => ([SGROp.setBackground (Color.indexed 7)], i + 1)
  | 48 =>
    let ci := parseColor ps i
    ([SGROp.setBackground ci.1], ci.2 + 1)
  | 49 => ([SGROp.setBackground Color.defaultColor], i + 1)
  | 51 => ([SGROp.rendition GraphicsRendition.Framed], i + 1)
  | 53 => ([SGROp.rendition GraphicsRendition.Overline], i + 1)
  | 54 => ([SGROp.rendition GraphicsRendition.NoFramed], i + 1)
  | 55 => ([SGROp.rendition GraphicsRendition.NoOverline], i + 1)
  | 58 =>
    let ci := parseColor ps i
    ([SGROp.setUnderline ci.1], ci.2 + 1)
  | 90 => ([SGROp.setForeground (Color.bright 0)], i + 1)
  | 91 => ([SGROp.setForeground (Color.bright 1)], i + 1)
  | 92 => ([SGROp.setForeground (Color.bright 2)], i + 1)
  | 93 => ([SGROp.setForeground (Color.bright 3)], i + 1)
  | 94 => ([SGROp.setForeground (Color.bright 4)], i + 1)
  | 95 => ([SGROp.setForeground (Color.bright 5)], i + 1)
  | 96 => ([SGROp.setForeground (Color.bright 6)], i + 1)
  | 97 => ([SGROp.setForeground (Color.bright 7)], i + 1)
  | 100 => ([SGROp.setBackground (Color.bright 0)], i + 1)
  | 101 => ([SGROp.setBackground (Color.bright 1)], i + 1)
  | 102 => ([SGROp.setBackground (Color.bright 2)], i + 1)
  | 103 => ([SGROp.setBackground (Color.bright 3)], i + 1)
  | 104 => ([SGROp.setBackground (Color.bright 4)], i + 1)
  | 105 => ([SGROp.setBackground (Color.bright 5)], i + 1)
  | 106 => ([SGROp.setBackground (Color.bright 6)], i + 1)
  | 107 => ([SGROp.setBackground (Color.bright 7)], i + 1)
  | _ => ([], i + 1)

/-- The `for` loop of `impl::dispatchSGR`, with fuel: every iteration
advances the index by at least one, so `parameterCount ps` iterations
always reach the loop exit. -/
def sgrLoop (ps : Params) : Nat → Nat → List SGROp
  | 0, _ => []
  | Nat.succ fuel, i =>
    if i < parameterCount ps then
      let oi := sgrStep ps i
      oi.1 ++ sgrLoop ps fuel oi.2
    else []

/-- `impl::dispatchSGR`: the sequence of screen calls made for an SGR
parameter list (an empty list resets the graphics rendition). -/
def dispatchSGR (ps : Params) : List SGROp :=
  if parameterCount ps = 0 then [SGROp.rendition GraphicsRendition.Reset]
  else sgrLoop ps (parameterCount ps) 0

/-- Style flags of the current graphics rendition (spec §3: cell style
flags). -/
structure StyleFlags where
  bold : Bool := false
  faint : Bool := false
  italic : Bool := false
  underline : Bool := false
  doublyUnderlined : Bool := false
  curlyUnderlined : Bool := false
  dottedUnderline : Bool := false
  dashedUnderline : Bool := false
  blinking : Bool := false
  inverse : Bool := false
  hidden : Bool := false
  crossedOut : Bool := false
  overline : Bool := false
  framed : Bool := false
deriving DecidableEq

/-- Modelled from the spec: `Screen::setGraphicsRendition`'s effect on the
style flags (Screen.cpp is not among the sources).  `Reset` clears all
flags, `Normal` clears the intensity flags, each `NoX` clears flag X, and
the underline variants are mutually exclusive. -/
def applyRendition (g : GraphicsRendition) (f : StyleFlags) : StyleFlags :=
  match g with
  | GraphicsRendition.Reset => {}
  | GraphicsRendition.Bold => { f with bold := true }
  | GraphicsRendition.Faint => { f with faint := true }
  | GraphicsRendition.Italic => { f with italic := true }
  | GraphicsRendition.Underline =>
    { f with underline := true, doublyUnderlined := false, curlyUnderlined := false,
             dottedUnderline := false, dashedUnderline := false }
  | GraphicsRendition.Blinking => { f with blinking := true }
  | GraphicsRendition.Inverse => { f with inverse := true }
  | GraphicsRendition.Hidden => { f with hidden := true }
  | GraphicsRendition.CrossedOut => { f with crossedOut := true }
  | GraphicsRendition.DoublyUnderlined =>
    { f with underline := false, doublyUnderlined := true, curlyUnderlined := false,
             dottedUnderline := false, dashedUnderline := false }
  | GraphicsRendition.CurlyUnderlined =>
    { f with underline := false, doublyUnderlined := false, curlyUnderlined := true,
             dottedUnderline := false, dashedUnderline := false }
  | GraphicsRendition.DottedUnderline =>
    { f with underline := false, doublyUnderlined := false, curlyUnderlined := false,
             dottedUnderline := true, dashedUnderline := false }
  | GraphicsRendition.DashedUnderline =>
    { f with underline := false, doublyUnderlined := false, curlyUnderlined := false,
             dottedUnderline := false, dashedUnderline := true }
  | GraphicsRendition.Normal => { f with bold := false, faint := false }
  | GraphicsRendition.NoItalic => { f with italic := false }
  | GraphicsRendition.NoUnderline =>
    { f with underline := false, doublyUnderlined := false, curlyUnderlined := false,
             dottedUnderline := false, dashedUnderline := false }
  | GraphicsRendition.NoBlinking => { f with blinking := false }
  | GraphicsRendition.NoInverse => { f with inverse := false }
  | GraphicsRendition.NoHidden => { f with hidden := false }
  | GraphicsRendition.NoCrossedOut => { f with crossedOut := false }
  | GraphicsRendition.Framed => { f with framed := true }
  | GraphicsRendition.Overline => { f with overline := true }
  | GraphicsRendition.NoFramed => { f with framed := false }
  | GraphicsRendition.NoOverline => { f with overline := false }

/-- The SGR portion of the cursor state: current colors and style flags
(spec §3, Cursor). -/
structure GraphicsAttributes where
  foregroundColor : Color := Color.defaultColor
  backgroundColor : Color := Color.defaultColor
  underlineColor : Color := Color.defaultColor
  flags : StyleFlags := {}
deriving DecidableEq

/-- Modelled from the spec: the effect of one `dispatchSGR` screen call on
the SGR state (Screen.cpp is not among the sources).  `Reset` restores the
default colors and clears the flags. -/
def applySGROp (s : GraphicsAttributes) (op : SGROp) : GraphicsAttributes :=
  match op with
  | SGROp.setForeground c => { s with foregroundColor := c }
  | SGROp.setBackground c => { s with backgroundColor := c }
  | SGROp.setUnderline c => { s with underlineColor := c }
  | SGROp.rendition GraphicsRendition.Reset => {}
  | SGROp.rendition g => { s with flags := applyRendition g s.flags }

/-- Applies a list of SGR screen calls in order. -/
def applySGROps (s : GraphicsAttributes) (ops : List SGROp) : GraphicsAttributes :=
  ops.foldl applySGROp s

/-- A written grid cell: glyph plus the SGR attributes it was printed
with. -/
structure Cell where
  ch : Char
  attr : GraphicsAttributes
deriving DecidableEq

/-- Modelled from the spec: a printed glyph snapshots the current SGR
attributes into the written cell (`Screen::writeText`, Screen.cpp is not
among the sources). -/
def printGlyph (s : GraphicsAttributes) (c : Char) : Cell := ⟨c, s⟩

/-- C2: dispatching SGR `38;2;R;G;B` with all components at most 255 makes
exactly one screen call, setting the foreground color to RGB(R,G,B); hence
for every prior SGR state the resulting state differs only in the
foreground color — every style flag, the background and the underline
color are unchanged — and a glyph printed afterwards carries that
foreground color ('X' yields a cell holding 'X' with that foreground). -/
theorem sgr_truecolor_sets_fg_only (r g b : Nat) (s : GraphicsAttributes)
    (hr : r ≤ 255) (hg : g ≤ 255) (hb : b ≤ 255) :
    dispatchSGR [[38], [2], [r], [g], [b]] = [SGROp.setForeground (Color.rgb r g b)]
    ∧ applySGROps s (dispatchSGR [[38], [2], [r], [g], [b]])
        = { s with foregroundColor := Color.rgb r g b }
    ∧ printGlyph (applySGROps s (dispatchSGR [[38], [2], [r], [g], [b]])) 'X'
        = ⟨'X', { s with foregroundColor := Color.rgb r g b }⟩ := by
  have hd : dispatchSGR [[38], [2], [r], [g], [b]]
      = [SGROp.setForeground (Color.rgb r g b)] := by
    simp [dispatchSGR, sgrLoop, sgrStep, parseColor, parseColorCompat,
      parameterCount, paramAt, subParameterCount, subparam, hr, hg, hb]
  refine ⟨hd, ?_, ?_⟩ <;> rw [hd] <;> rfl

/-- Witness for the C2 theorem at the concrete scenario
`ESC [ 38 ; 2 ; 10 ; 20 ; 30 m X` from the default SGR state. -/
theorem sgr_truecolor_witness :
    dispatchSGR [[38], [2], [10], [20], [30]]
      = [SGROp.setForeground (Color.rgb 10 20 30)]
    ∧ applySGROps {} (dispatchSGR [[38], [2], [10], [20], [30]])
        = { ({} : GraphicsAttributes) with foregroundColor := Color.rgb 10 20 30 }
    ∧ printGlyph (applySGROps {} (dispatchSGR [[38], [2], [10], [20], [30]])) 'X'
        = ⟨'X', { ({} : GraphicsAttributes) with foregroundColor := Color.rgb 10 20 30 }⟩ :=
  sgr_truecolor_sets_fg_only 10 20 30 {} (by decide) (by decide) (by decide)

/-- C5 counterexample: LF (0x0A) is dispatched to the `linefeed` screen
operation while VT (0x0B) is dispatched to `index`, so the three control
codes LF/VT/FF are not all mapped to the same screen operation. -/
theorem lf_vt_dispatch_differs :
    executeControlFunction 0x0A ≠ executeControlFunction 0x0B := by
  decide

/-- C5 amended: VT (0x0B) and FF (0x0C) are both mapped to the `index`
operation — in `executeControlFunction` and in the VT/FF registry cases of
`Sequencer::apply` — while LF (0x0A) is mapped to the distinct `linefeed`
operation. -/
theorem vt_ff_index_lf_linefeed :
    executeControlFunction 0x0B = C0Op.index
    ∧ executeControlFunction 0x0C = C0Op.index
    ∧ executeControlFunction 0x0A = C0Op.linefeed
    ∧ applyC0 C0Func.VT = C0Op.index
    ∧ applyC0 C0Func.FF = C0Op.index
    ∧ applyC0 C0Func.LF = C0Op.linefeed
    ∧ C0Op.linefeed ≠ C0Op.index := by
  decide

/-- C6: evaluating the SGR dispatcher at the failing input `38;5;300`
(with a following parameter `31`): the out-of-range color index 300 is
accepted rather than failing — the guard of the indexed compatibility
branch in `impl::parseColor` tests the parameter index `i` instead of the
parsed value — and the foreground is set to the truncated index 44. -/
theorem sgr_out_of_range_index_accepted :
    parseColor [[38], [5], [300], [31]] 0 = (Color.indexed 44, 2)
    ∧ dispatchSGR [[38], [5], [300], [31]]
        = [SGROp.setForeground (Color.indexed 44), SGROp.setForeground (Color.indexed 1)] := by
  decide

/-- The `DECMode` enumeration (values named in `impl::toDECMode` and
`to_string(DECMode)`). -/
inductive DECMode where
  | UseApplicationCursorKeys
  | DesignateCharsetUSASCII
  | Columns132
  | SmoothScroll
  | ReverseVideo
  | Origin
  | AutoWrap
  | MouseProtocolX10
  | ShowToolbar
  | BlinkingCursor
  | PrinterExtend
  | VisibleCursor
  | ShowScrollbar
  | AllowColumns80to132
  | DebugLogging
  | UseAlternateScreen
  | LeftRightMargin
  | SixelScrolling
  | MouseProtocolNormalTracking
  | MouseProtocolHighlightTracking
  | MouseProtocolButtonTracking
  | MouseProtocolAnyEventTracking
  | FocusTracking
  | MouseExtended
  | MouseSGR
  | MouseAlternateScroll
  | MouseURXVT
  | MouseSGRPixels
  | SaveCursor
  | ExtendedAltScreen
  | BracketedPaste
  | BatchedRendering
  | TextReflow
  | SixelCursorNextToGraphic
  | UsePrivateColorRegisters
deriving DecidableEq

/-- `impl::toDECMode`: the numeric DEC private mode numbers the sequencer
recognizes. -/
def toDECMode (n : Nat) : Option DECMode :=
  match n with
  | 1 => some DECMode.UseApplicationCursorKeys
  | 2 => some DECMode.DesignateCharsetUSASCII
  | 3 => some DECMode.Columns132
  | 4 => some DECMode.SmoothScroll
  | 5 => some DECMode.ReverseVideo
  | 6 => some DECMode.Origin
  | 7 => some DECMode.AutoWrap
  | 9 => some DECMode.MouseProtocolX10
  | 10 => some DECMode.ShowToolbar
  | 12 => some DECMode.BlinkingCursor
  | 19 => some DECMode.PrinterExtend
  | 25 => some DECMode.VisibleCursor
  | 30 => some DECMode.ShowScrollbar
  | 40 => some DECMode.AllowColumns80to132
  | 46 => some DECMode.DebugLogging
  | 47 => some DECMode.UseAlternateScreen
  | 69 => some DECMode.LeftRightMargin
  | 80 => some DECMode.SixelScrolling
  | 1000 => some DECMode.MouseProtocolNormalTracking
  | 1001 => some DECMode.MouseProtocolHighlightTracking
  | 1002 => some DECMode.MouseProtocolButtonTracking
  | 1003 => some DECMode.MouseProtocolAnyEventTracking
  | 1004 => some DECMode.FocusTracking
  | 1005 => some DECMode.MouseExtended
  | 1006 => some DECMode.MouseSGR
  | 1007 => some DECMode.MouseAlternateScroll
  | 1015 => some DECMode.MouseURXVT
  | 1016 => some DECMode.MouseSGRPixels
  | 1047 => some DECMode.UseAlternateScreen
  | 1048 => some DECMode.SaveCursor
  | 1049 => some DECMode.ExtendedAltScreen
  | 2004 => some DECMode.BracketedPaste
  | 2026 => some DECMode.BatchedRendering
  | 2027 => some DECMode.TextReflow
  | 8452 => some DECMode.SixelCursorNextToGraphic
  | _ => none

/-- The DEC mode register: each mode has a current boolean (spec §4.7). -/
abbrev DECModeRegister := DECMode → Bool

/-- Modelled from the spec: `Screen::setMode(DECMode, bool)` stores the
boolean into the mode register (Screen.cpp is not among the sources; side
effects of individual modes act on other state, not on the register). -/
def setModeRegister (m : DECMode) (v : Bool) (reg : DECModeRegister) : DECModeRegister :=
  fun m2 => if m2 = m then v else reg m2

/-- `impl::setModeDEC` as invoked by the DECSM/DECRM cases of
`Sequencer::apply`: translate the numeric mode via `toDECMode` and set the
register; an unrecognized number is `ApplyResult::Invalid` and leaves the
register unchanged. -/
def setModeDEC (n : Nat) (enable : Bool) (reg : DECModeRegister) : DECModeRegister :=
  match toDECMode n with
  | some m => setModeRegister m enable reg
  | none => reg

/-- C4 counterexample: starting from the reachable state in which mode 6
(DECOM) is already set — obtained by a first DECSET(6) from the all-clear
register — running DECSET(6); DECRST(6) leaves the register cleared, not at
its prior (set) value. -/
theorem decset_decrst_not_involutive :
    ¬ (setModeDEC 6 false (setModeDEC 6 true (setModeDEC 6 true (fun _ => false)))
         DECMode.Origin
       = setModeDEC 6 true (fun _ => false) DECMode.Origin) := by
  decide

/-- C4 amended: for every recognized DEC private mode number `n` and every
register state, DECSET(n); DECRST(n) leaves the register for `n` cleared
and every other mode's register untouched; hence the whole register
returns to its prior value exactly when mode `n` was not already set
beforehand — if it was set, the pair leaves it cleared instead of
restoring it. -/
theorem decset_decrst_clears (n : Nat) (m : DECMode) (reg : DECModeRegister)
    (m2 : DECMode) (h : toDECMode n = some m) :
    setModeDEC n false (setModeDEC n true reg) m = false
    ∧ (m2 ≠ m → setModeDEC n false (setModeDEC n true reg) m2 = reg m2)
    ∧ (reg m = false → setModeDEC n false (setModeDEC n true reg) m2 = reg m2)
    ∧ (reg m = true → setModeDEC n false (setModeDEC n true reg) m ≠ reg m) := by
  unfold setModeDEC
  rw [h]
  unfold setModeRegister
  refine ⟨by simp, ?_, ?_, ?_⟩
  · intro hne
    simp [hne]
  · intro hprior
    by_cases hm : m2 = m
    · simp [hm, hprior]
    · simp [hm]
  · intro hset
    simp [hset]

/-- Witness for the amended C4 theorem at mode number 6 (DECOM): clearing
and untouched-other-register over the all-clear state, and non-restoration
over the reachable state where DECOM is already set. -/
theorem decset_decrst_clears_witness :
    setModeDEC 6 false (setModeDEC 6 true (fun _ => false)) DECMode.Origin = false
    ∧ setModeDEC 6 false (setModeDEC 6 true (fun _ => false))
        DECMode.UseApplicationCursorKeys
      = (fun _ => false : DECModeRegister) DECMode.UseApplicationCursorKeys
    ∧ setModeDEC 6 false (setModeDEC 6 true (setModeDEC 6 true (fun _ => false)))
        DECMode.Origin
      ≠ setModeDEC 6 true (fun _ => false) DECMode.Origin :=
  ⟨(decset_decrst_clears 6 DECMode.Origin (fun _ => false) DECMode.Origin rfl).1,
   (decset_decrst_clears 6 DECMode.Origin (fun _ => false)
      DECMode.UseApplicationCursorKeys rfl).2.1 (by decide),
   (decset_decrst_clears 6 DECMode.Origin (setModeDEC 6 true (fun _ => false))
      DECMode.Origin rfl).2.2.2 (by decide)⟩

/-- The leading-digit `while` loop of `parseOSC`: accumulates
`code = code * 10 + digit` over leading ASCII digits, counting them in
`i`. -/
def oscDigitsAux (code : Int) (i : Nat) : List Char → Int × Nat
  | [] => (code, i)
  | c :: cs =>
    if c.isDigit then oscDigitsAux (code * 10 + ((c.toNat : Int) - 48)) (i + 1) cs
    else (code, i)

/-- `parseOSC(string const&)`: the OSC code and the offset of the first
data byte.  Leading digits form the code; a payload starting with a
non-digit, non-`;` byte instead yields the negated byte value and skips
exactly that byte; one `;` at the current offset is then skipped. -/
def parseOSC (l : List Char) : Int × Nat :=
  let cn := oscDigitsAux 0 0 l
  let cn2 :=
    if cn.2 = 0 ∧ l ≠ [] ∧ l.headD ' ' ≠ ';' then
      (-((l.headD ' ').toNat : Int), 1)
    else cn
  if cn2.2 < l.length ∧ l.getD cn2.2 ' ' = ';' then (cn2.1, cn2.2 + 1) else cn2

/-- Decimal value of a digit run, accumulated left to right from `a`. -/
def digitsValFrom (a : Int) (ds : List Char) : Int :=
  ds.foldl (fun acc c => acc * 10 + ((c.toNat : Int) - 48)) a

/-- The digit loop consumes exactly the maximal run of leading ASCII digits
and accumulates its decimal value. -/
theorem oscDigitsAux_eq (code : Int) (i : Nat) (l : List Char) :
    oscDigitsAux code i l
      = (digitsValFrom code (l.takeWhile (fun c => c.isDigit)),
         i + (l.takeWhile (fun c => c.isDigit)).length) := by
  induction l generalizing code i with
  | nil => simp [oscDigitsAux, digitsValFrom]
  | cons c cs ih =>
    by_cases hc : c.isDigit
    · simp only [oscDigitsAux, hc, if_pos, List.takeWhile_cons, ih]
      simp [hc, digitsValFrom, List.length_cons]
      omega
    · simp [oscDigitsAux, hc, List.takeWhile_cons, digitsValFrom]

/-- C10 counterexample: on the payload `1a;b` the code is 1 (the leading
digit run) but the data offset is 1 — right at the first non-digit byte —
*not* 3, the position just past the first `;` (which sits at index 2). -/
theorem parseosc_data_not_past_first_semicolon :
    parseOSC ['1', 'a', ';', 'b'] = (1, 1)
    ∧ (['1', 'a', ';', 'b'].findIdx (fun c => c = ';')) + 1 = 3
    ∧ (parseOSC ['1', 'a', ';', 'b']).2 ≠ 3 := by
  decide

/-- C10 amended: the code is the decimal value of the maximal run of
leading digits — or the negation of the first byte when that run is empty
and the payload starts with a byte other than `;` — and the data offset is
the length of what was consumed (the digit run, or that single byte), plus
one more if a `;` stands exactly there; the data does not skip to the first
`;` in general. -/
theorem parseosc_characterization (l : List Char) :
    parseOSC l
      = (let ds := l.takeWhile (fun c => c.isDigit)
         let neg : Prop := ds.length = 0 ∧ l ≠ [] ∧ l.headD ' ' ≠ ';'
         let code : Int :=
           if neg then -((l.headD ' ').toNat : Int) else digitsValFrom 0 ds
         let base : Nat := if neg then 1 else ds.length
         (code, if base < l.length ∧ l.getD base ' ' = ';' then base + 1 else base)) := by
  simp only [parseOSC, oscDigitsAux_eq, Nat.zero_add]
  split_ifs <;> simp_all

/-- The `RequestStatusString` settings recognized by DECRQSS. -/
inductive RequestStatusString where
  | SGR
  | DECSCL
  | DECSCUSR
  | DECSCA
  | DECSTBM
  | DECSLRM
  | DECSLPP
  | DECSCPP
  | DECSNLS
deriving DecidableEq

/-- The mappings array of `Sequencer::hookDECRQSS`: payload strings and the
settings they name. -/
def decrqssMappings : List (String × RequestStatusString) :=
  [("m", RequestStatusString.SGR),
   ("\"p", RequestStatusString.DECSCL),
   (" q", RequestStatusString.DECSCUSR),
   ("\"q", RequestStatusString.DECSCA),
   ("r", RequestStatusString.DECSTBM),
   ("s", RequestStatusString.DECSLRM),
   ("t", RequestStatusString.DECSLPP),
   ("$|", RequestStatusString.DECSCPP),
   ("*|", RequestStatusString.DECSNLS)]

/-- The first-match loop over the mappings in `Sequencer::hookDECRQSS`. -/
def lookupRequestStatus : List (String × RequestStatusString) → String →
    Option RequestStatusString
  | [], _ => none
  | p :: rest, d => if d = p.1 then some p.2 else lookupRequestStatus rest d

/-- Modelled from the spec: the valid-request DECRQSS reply
`ESC P 1 $ r <value> ESC \` produced by `Screen::requestStatusString`
(Screen.cpp is not among the sources); `value` is the current value string
of the requested setting. -/
def decrqssValidReply (value : String) : String :=
  "\x1BP1$r" ++ value ++ "\x1B\\"

/-- The invalid-request DECRQSS reply `ESC P 0 $ r ESC \` named by the
spec. -/
def decrqssInvalidReply : String :=
  "\x1BP0$r\x1B\\"

/-- `Sequencer::hookDECRQSS`'s finalizer: the replies sent for a collected
payload, parametrized over the value string each recognized setting
reports.  A recognized payload requests its status string; an unrecognized
payload does nothing. -/
def decrqssFinalize (value : RequestStatusString → String) (payload : String) :
    List String :=
  match lookupRequestStatus decrqssMappings payload with
  | some s => [decrqssValidReply (value s)]
  | none => []

/-- A successful first-match lookup returns an entry of the table. -/
theorem lookupRequestStatus_some_mem (tbl : List (String × RequestStatusString))
    (d : String) (s : RequestStatusString)
    (h : lookupRequestStatus tbl d = some s) : (d, s) ∈ tbl := by
  induction tbl with
  | nil => simp [lookupRequestStatus] at h
  | cons p rest ih =>
    by_cases hd : d = p.1
    · simp only [lookupRequestStatus, hd, if_pos, Option.some.injEq] at h
      subst hd
      subst h
      exact List.mem_cons_self _ _
    · simp only [lookupRequestStatus, hd, if_neg, not_false_iff] at h
      exact List.mem_cons_of_mem _ (ih h)

/-- A failed first-match lookup means no entry of the table has the key. -/
theorem lookupRequestStatus_none_not_mem (tbl : List (String × RequestStatusString))
    (d : String) (h : lookupRequestStatus tbl d = none) :
    ∀ s, (d, s) ∉ tbl := by
  induction tbl with
  | nil => simp
  | cons p rest ih =>
    intro s hmem
    by_cases hd : d = p.1
    · simp [lookupRequestStatus, hd] at h
    · simp only [lookupRequestStatus, hd, if_neg, not_false_iff] at h
      rcases List.mem_cons.mp hmem with heq | hrest
      · exact hd (congrArg Prod.fst heq)
      · exact ih h s hrest

/-- C7 counterexample: the payload `x` names no recognized setting and the
terminal sends no reply at all — not the invalid-request form
`ESC P 0 $ r ESC \`. -/
theorem decrqss_unrecognized_silent :
    decrqssFinalize (fun _ => "") "x" = []
    ∧ decrqssFinalize (fun _ => "") "x" ≠ [decrqssInvalidReply] := by
  constructor
  · rfl
  · intro h
    simp [decrqssFinalize, lookupRequestStatus, decrqssMappings] at h

/-- C7 amended: for every DECRQSS payload, either it is one of the
recognized setting names and the single reply is the valid status string
`ESC P 1 $ r <value> ESC \`, or it names no recognized setting and no reply
is sent (the invalid form `ESC P 0 $ r ESC \` is never produced by this
path). -/
theorem decrqss_reply_characterization (value : RequestStatusString → String)
    (payload : String) :
    (∃ s, (payload, s) ∈ decrqssMappings
        ∧ decrqssFinalize value payload = [decrqssValidReply (value s)])
    ∨ ((∀ s, (payload, s) ∉ decrqssMappings)
        ∧ decrqssFinalize value payload = []) := by
  cases h : lookupRequestStatus decrqssMappings payload with
  | some s =>
    exact Or.inl ⟨s, lookupRequestStatus_some_mem _ _ _ h,
      by simp [decrqssFinalize, h]⟩
  | none =>
    exact Or.inr ⟨lookupRequestStatus_none_not_mem _ _ h,
      by simp [decrqssFinalize, h]⟩

/-- Modelled from the spec: `Sequence::MaxParameters` (Sequence.h is not
among the sources; spec §4.1: parameters are capped at about 16 per
list).  `Sequencer::param` uses this one constant for both the parameter
cap and the sub-parameter cap. -/
def MaxParameters : Nat := 16

/-- Modelled from the spec: `Sequence::MaxOscLength` (spec §4.1: OSC string
cap of about 1 MiB). -/
def MaxOscLength : Nat := 1048576

/-- Replaces the last element of a list, the `back()` of the C++ vector. -/
def updateLast (f : α → α) : List α → List α
  | [] => []
  | [a] => [f a]
  | a :: b :: rest => a :: updateLast f (b :: rest)

/-- `Sequencer::param`: one parameter byte applied to the parameter lists
under construction.  A first byte materializes the initial parameter; `;`
starts a new parameter unless the parameter cap is reached (then it is
dropped), `:` starts a new sub-parameter of the last parameter unless that
parameter is at the cap (then it is dropped), a digit accumulates into the
last sub-parameter, anything else is ignored. -/
def paramStep (ps : Params) (c : Char) : Params :=
  let ps1 := if ps.isEmpty then [[0]] else ps
  if c = ';' then
    if ps1.length < MaxParameters then ps1 ++ [[0]] else ps1
  else if c = ':' then
    updateLast (fun p => if p.length < MaxParameters then p ++ [0] else p) ps1
  else if '0' ≤ c ∧ c ≤ '9' then
    updateLast (updateLast (fun v => v * 10 + (c.toNat - 48))) ps1
  else ps1

/-- `Sequencer::putOSC`: a byte joins the collected OSC string only while
one more byte still keeps the string below `MaxOscLength`. -/
def putOSCStep (osc : List Char) (c : Char) : List Char :=
  if osc.length + 1 < MaxOscLength then osc ++ [c] else osc

/-- Cap invariant of the parameter lists: at most `MaxParameters`
parameters, each nonempty and holding at most `MaxParameters` entries (its
value plus its sub-parameters). -/
def ParamsInv (ps : Params) : Prop :=
  ps.length ≤ MaxParameters ∧ ∀ p ∈ ps, 0 < p.length ∧ p.length ≤ MaxParameters

theorem updateLast_length (f : α → α) (l : List α) :
    (updateLast f l).length = l.length := by
  induction l with
  | nil => rfl
  | cons a rest ih =>
    cases rest with
    | nil => rfl
    | cons b rest2 => simpa [updateLast] using ih

theorem mem_updateLast (f : α → α) (l : List α) (p : α)
    (hp : p ∈ updateLast f l) : p ∈ l ∨ ∃ q ∈ l, p = f q := by
  induction l with
  | nil => simp [updateLast] at hp
  | cons a rest ih =>
    cases rest with
    | nil =>
      simp only [updateLast, List.mem_singleton] at hp
      exact Or.inr ⟨a, List.mem_singleton_self a, hp⟩
    | cons b rest2 =>
      simp only [updateLast, List.mem_cons] at hp
      rcases hp with h | h
      · exact Or.inl (by simp [h])
      · rcases ih h with h2 | ⟨q, hq, hfq⟩
        · exact Or.inl (List.mem_cons_of_mem _ h2)
        · exact Or.inr ⟨q, List.mem_cons_of_mem _ hq, hfq⟩

theorem paramsInv_updateLast (f : List Nat → List Nat) (ps : Params)
    (h : ParamsInv ps)
    (hf : ∀ q, 0 < q.length → q.length ≤ MaxParameters →
      0 < (f q).length ∧ (f q).length ≤ MaxParameters) :
    ParamsInv (updateLast f ps) := by
  refine ⟨by rw [updateLast_length]; exact h.1, ?_⟩
  intro p hp
  rcases mem_updateLast _ _ p hp with hp2 | ⟨q, hq, hfq⟩
  · exact h.2 p hp2
  · obtain ⟨hq1, hq2⟩ := h.2 q hq
    subst hfq
    exact hf q hq1 hq2

theorem paramsInv_paramStep (ps : Params) (c : Char) (h : ParamsInv ps) :
    ParamsInv (paramStep ps c) := by
  have hbase : ParamsInv (if ps.isEmpty then [[0]] else ps) := by
    by_cases he : ps.isEmpty
    · rw [if_pos he]
      refine ⟨by simp [MaxParameters], ?_⟩
      intro p hp
      rw [List.mem_singleton] at hp
      subst hp
      exact ⟨by simp, by simp [MaxParameters]⟩
    · rw [if_neg he]
      exact h
  rw [paramStep]
  set ps1 := if ps.isEmpty then [[0]] else ps with hps1
  by_cases hsemi : c = ';'
  · rw [if_pos hsemi]
    by_cases hcap : ps1.length < MaxParameters
    · rw [if_pos hcap]
      refine ⟨?_, ?_⟩
      · rw [List.length_append]
        simpa using hcap
      · intro p hp
        rcases List.mem_append.mp hp with hp2 | hp2
        · exact hbase.2 p hp2
        · rw [List.mem_singleton] at hp2
          subst hp2
          exact ⟨by simp, by simp [MaxParameters]⟩
    · rw [if_neg hcap]
      exact hbase
  · rw [if_neg hsemi]
    by_cases hcolon : c = ':'
    · rw [if_pos hcolon]
      refine paramsInv_updateLast _ _ hbase ?_
      intro q hq1 hq2
      by_cases hqc : q.length < MaxParameters
      · rw [if_pos hqc]
        constructor
        · rw [List.length_append]
          omega
        · rw [List.length_append]
          simpa using hqc
      · rw [if_neg hqc]
        exact ⟨hq1, hq2⟩
    · rw [if_neg hcolon]
      by_cases hdig : '0' ≤ c ∧ c ≤ '9'
      · rw [if_pos hdig]
        refine paramsInv_updateLast _ _ hbase ?_
        intro q hq1 hq2
        rw [updateLast_length]
        exact ⟨hq1, hq2⟩
      · rw [if_neg hdig]
        exact hbase

theorem paramsInv_foldl (cs : List Char) (ps : Params) (h : ParamsInv ps) :
    ParamsInv (cs.foldl paramStep ps) := by
  induction cs generalizing ps with
  | nil => exact h
  | cons c rest ih => exact ih _ (paramsInv_paramStep _ _ h)

theorem putOSC_foldl_lt (cs : List Char) (osc : List Char)
    (h : osc.length < MaxOscLength) :
    (cs.foldl putOSCStep osc).length < MaxOscLength := by
  induction cs generalizing osc with
  | nil => exact h
  | cons c rest ih =>
    apply ih
    unfold putOSCStep
    by_cases hc : osc.length + 1 < MaxOscLength
    · simpa [if_pos hc] using hc
    · simpa [if_neg hc] using h

/-- A parameter list already at the cap: sixteen parameters. -/
def fullParams : Params := List.replicate 16 [0]

/-- C3: for every input byte sequence, the parameter lists built by
`Sequencer::param` hold at most `MaxParameters` parameters, each parameter
holds at most `MaxParameters` entries (so at most `MaxParameters - 1`
sub-parameters), and the OSC string collected by `Sequencer::putOSC` stays
below `MaxOscLength`; a `;` at the parameter cap, a `:` at the
sub-parameter cap and a byte at the OSC cap are silently dropped, leaving
the state unchanged so the sequence still completes. -/
theorem sequencer_caps (cs : List Char) :
    (cs.foldl paramStep []).length ≤ MaxParameters
    ∧ (∀ p ∈ cs.foldl paramStep [], p.length ≤ MaxParameters)
    ∧ (cs.foldl putOSCStep []).length < MaxOscLength
    ∧ paramStep fullParams ';' = fullParams
    ∧ paramStep [List.replicate 16 0] ':' = [List.replicate 16 0]
    ∧ putOSCStep (List.replicate (MaxOscLength - 1) 'a') 'b'
        = List.replicate (MaxOscLength - 1) 'a' := by
  have hinv : ParamsInv (cs.foldl paramStep []) :=
    paramsInv_foldl cs [] ⟨by simp [MaxParameters], by simp⟩
  refine ⟨hinv.1, fun p hp => (hinv.2 p hp).2, ?_, ?_, ?_, ?_⟩
  · exact putOSC_foldl_lt cs [] (by simp [MaxOscLength])
  · decide
  · decide
  · have h : ¬ ((List.replicate (MaxOscLength - 1) 'a').length + 1 < MaxOscLength) := by
      rw [List.length_replicate]
      unfold MaxOscLength
      omega
    rw [putOSCStep, if_neg h]

/-- Witness for the C3 cap theorem on the bytes `9;:`, whose built
parameter list is `[[9], [0, 0]]`. -/
theorem sequencer_caps_witness :
    (['9', ';', ':'].foldl paramStep []).length ≤ MaxParameters
    ∧ [0, 0].length ≤ MaxParameters
    ∧ (['9', ';', ':'].foldl putOSCStep []).length < MaxOscLength
    ∧ paramStep fullParams ';' = fullParams :=
  ⟨(sequencer_caps ['9', ';', ':']).1,
   (sequencer_caps ['9', ';', ':']).2.1 [0, 0] (by decide),
   (sequencer_caps ['9', ';', ':']).2.2.1,
   (sequencer_caps ['9', ';', ':']).2.2.2.1⟩

/-- The screen state needed for cursor addressing and glyph writing: page
size, cursor, origin mode, margins, autowrap and pending-wrap flags, and
the grid of written glyphs (spec §3). -/
structure ScreenState where
  lines : Nat
  columns : Nat
  cursorLine : Nat
  cursorColumn : Nat
  originMode : Bool
  autoWrap : Bool
  pendingWrap : Bool
  marginTop : Nat
  marginBottom : Nat
  marginLeft : Nat
  marginRight : Nat
  grid : Nat → Nat → Char

/-- `std::clamp(v, lo, hi)` over integers. -/
def clampInt (v lo hi : Int) : Int :=
  if v < lo then lo else if hi < v then hi else v

/-- `Screen::clampedLine` (Screen.h): clamp a line offset to
`[0, pageSize.lines - 1]`. -/
def clampedLine (s : ScreenState) (l : Int) : Int :=
  clampInt l 0 ((s.lines : Int) - 1)

/-- `Screen::clampedColumn` (Screen.h): clamp a column offset to
`[0, pageSize.columns - 1]`. -/
def clampedColumn (s : ScreenState) (c : Int) : Int :=
  clampInt c 0 ((s.columns : Int) - 1)

/-- Modelled from the spec: `Screen::moveCursorTo` (Screen.cpp is not among
the sources).  Under origin mode the coordinate is relative to the margin
top-left and clamps to the margins (spec §8); otherwise it clamps to the
page via Screen.h's `clampedLine`/`clampedColumn`.  Cursor motion clears
the pending-wrap flag (spec §4.4). -/
def moveCursorTo (s : ScreenState) (l c : Int) : ScreenState :=
  if s.originMode then
    { s with
      cursorLine := (clampInt (l + s.marginTop) s.marginTop s.marginBottom).toNat,
      cursorColumn := (clampInt (c + s.marginLeft) s.marginLeft s.marginRight).toNat,
      pendingWrap := false }
  else
    { s with
      cursorLine := (clampedLine s l).toNat,
      cursorColumn := (clampedColumn s c).toNat,
      pendingWrap := false }

/-- The CUP case of `Sequencer::apply`: move the cursor to line
`param_or(0, 1) - 1` and column `param_or(1, 1) - 1`. -/
def applyCUP (ps : Params) (s : ScreenState) : ScreenState :=
  moveCursorTo s ((paramOr ps 0 1 : Int) - 1) ((paramOr ps 1 1 : Int) - 1)

/-- Modelled from the spec: `Screen::writeText` for one glyph (Screen.cpp
is not among the sources).  A pending wrap with autowrap on first moves to
the next line (the cursor pins at the bottom when the page would scroll;
the content shift of scrolling is not modelled, only the write position);
the glyph is stored at the cursor cell; at the right edge the cursor stays
and with autowrap on the wrap becomes pending, otherwise the cursor
advances (spec §4.4 wrap semantics). -/
def writeText (s : ScreenState) (ch : Char) : ScreenState :=
  let s1 :=
    if s.pendingWrap ∧ s.autoWrap then
      { s with cursorLine := min (s.cursorLine + 1) (s.lines - 1),
               cursorColumn := 0, pendingWrap := false }
    else s
  let s2 :=
    { s1 with grid := fun l c =>
        if l = s1.cursorLine ∧ c = s1.cursorColumn then ch else s1.grid l c }
  if s2.cursorColumn + 1 < s2.columns then
    { s2 with cursorColumn := s2.cursorColumn + 1 }
  else if s2.autoWrap then
    { s2 with pendingWrap := true }
  else s2

theorem writeText_grid (s : ScreenState) (ch : Char) (h : s.pendingWrap = false) :
    (writeText s ch).grid
      = fun l c => if l = s.cursorLine ∧ c = s.cursorColumn then ch else s.grid l c := by
  unfold writeText
  simp only [h, Bool.false_eq_true, false_and, if_neg, not_false_iff]
  split_ifs <;> rfl

/-- C1: a CUP whose row and column parameters both exceed the page size
clamps the cursor to the bottom-right page cell (origin mode off, as on a
fresh screen), and the glyph printed next lands exactly in that cell — no
other grid cell changes, so nothing is written outside the page. -/
theorem cup_overflow_clamps_to_bottom_right (s : ScreenState) (p0 p1 : Nat)
    (horigin : s.originMode = false) (hl : 0 < s.lines) (hc : 0 < s.columns)
    (hp0 : s.lines < p0) (hp1 : s.columns < p1) :
    (applyCUP [[p0], [p1]] s).cursorLine = s.lines - 1
    ∧ (applyCUP [[p0], [p1]] s).cursorColumn = s.columns - 1
    ∧ (writeText (applyCUP [[p0], [p1]] s) '*').grid (s.lines - 1) (s.columns - 1) = '*'
    ∧ ∀ l c, (writeText (applyCUP [[p0], [p1]] s) '*').grid l c ≠ s.grid l c →
        l = s.lines - 1 ∧ c = s.columns - 1 := by
  have hcur : applyCUP [[p0], [p1]] s
      = { s with cursorLine := s.lines - 1, cursorColumn := s.columns - 1,
                 pendingWrap := false } := by
    unfold applyCUP moveCursorTo
    rw [horigin]
    simp only [Bool.false_eq_true, if_neg, not_false_iff]
    congr 1
    · have hp : paramOr [[p0], [p1]] 0 1 = p0 := by
        simp [paramOr, paramAt]
      unfold clampedLine clampInt
      rw [hp]
      split_ifs <;> omega
    · have hp : paramOr [[p0], [p1]] 1 1 = p1 := by
        simp [paramOr, paramAt]
      unfold clampedColumn clampInt
      rw [hp]
      split_ifs <;> omega
  have hgrid : (writeText (applyCUP [[p0], [p1]] s) '*').grid
      = fun l c => if l = s.lines - 1 ∧ c = s.columns - 1 then '*' else s.grid l c := by
    rw [hcur, writeText_grid _ _ rfl]
  refine ⟨by rw [hcur], by rw [hcur], ?_, ?_⟩
  · rw [hgrid]
    simp
  · intro l c hne
    rw [hgrid] at hne
    by_cases hcell : l = s.lines - 1 ∧ c = s.columns - 1
    · exact hcell
    · simp only [if_neg hcell] at hne
      exact absurd rfl hne

/-- Witness for the C1 theorem: on a blank 80×24 screen the input
`ESC [ 999 ; 999 H *` leaves the cursor at line offset 23, column offset
79 (row 24, column 80) and writes `*` into that cell. -/
theorem cup_overflow_witness :
    (applyCUP [[999], [999]] (ScreenState.mk 24 80 0 0 false true false 0 23 0 79
        (fun _ _ => ' '))).cursorLine = 23
    ∧ (applyCUP [[999], [999]] (ScreenState.mk 24 80 0 0 false true false 0 23 0 79
        (fun _ _ => ' '))).cursorColumn = 79
    ∧ (writeText (applyCUP [[999], [999]] (ScreenState.mk 24 80 0 0 false true false 0 23 0 79
        (fun _ _ => ' '))) '*').grid 23 79 = '*' :=
  ⟨(cup_overflow_clamps_to_bottom_right _ 999 999 rfl (by decide) (by decide)
      (by decide) (by decide)).1,
   (cup_overflow_clamps_to_bottom_right _ 999 999 rfl (by decide) (by decide)
      (by decide) (by decide)).2.1,
   (cup_overflow_clamps_to_bottom_right _ 999 999 rfl (by decide) (by decide)
      (by decide) (by decide)).2.2.1⟩

/-- A palette or register event emitted by `SixelParser::leaveState`. -/
inductive SixelEvent where
  | useColor (index : Nat)
  | setColor (index : Nat) (color : RGBColor)
deriving DecidableEq

/-- The component scaling in `SixelParser::leaveState`: the source computes
`int(float(v) * 255.0f / 100.0f) % 256`; on the sixel component range
0..100 the 32-bit float computation agrees with this exact integer form. -/
def convertValue (v : Nat) : Nat :=
  v * 255 / 100 % 256

/-- `SixelParser::leaveState`, `ColorParam` case: one parameter selects a
palette register (`useColor`); five parameters define a register's color,
but the converted color is stored only when the colorspace selector (the
second parameter) equals 2 (RGB) — any other selector (HSL) stores
nothing. -/
def leaveColorParam (params : List Nat) : List SixelEvent :=
  if params.length = 1 then [SixelEvent.useColor (params.headD 0)]
  else if params.length = 5 then
    if params.getD 1 0 = 2 then
      [SixelEvent.setColor (params.headD 0)
        ⟨convertValue (params.getD 2 0), convertValue (params.getD 3 0),
         convertValue (params.getD 4 0)⟩]
    else []
  else []

/-- C9 counterexample: the five-parameter color definition `#0;1;50;50;50`
(colorspace selector 1, i.e. HSL) emits no palette event at all — in
particular it does not store the components converted as RGB. -/
theorem sixel_hsl_defines_no_color :
    leaveColorParam [0, 1, 50, 50, 50] = []
    ∧ leaveColorParam [0, 1, 50, 50, 50]
        ≠ [SixelEvent.setColor 0
            ⟨convertValue 50, convertValue 50, convertValue 50⟩] := by
  decide

/-- C9 amended: a five-parameter sixel color definition whose colorspace
selector differs from 2 is parsed and consumed but ignored — the palette is
left unchanged; only selector 2 stores the register, with components scaled
from 0..100 to 0..255 as RGB. -/
theorem sixel_color_rgb_only (i cs p1 p2 p3 : Nat) (h : cs ≠ 2) :
    leaveColorParam [i, cs, p1, p2, p3] = []
    ∧ leaveColorParam [i, 2, p1, p2, p3]
        = [SixelEvent.setColor i
            ⟨convertValue p1, convertValue p2, convertValue p3⟩] := by
  constructor
  · simp [leaveColorParam, h]
  · simp [leaveColorParam]

/-- Witness for the amended C9 theorem at the color definition
`#0;1;50;50;50`. -/
theorem sixel_color_rgb_only_witness :
    leaveColorParam [0, 1, 50, 50, 50] = ([] : List SixelEvent)
    ∧ leaveColorParam [0, 2, 50, 50, 50]
        = [SixelEvent.setColor 0
            ⟨convertValue 50, convertValue 50, convertValue 50⟩] :=
  ⟨(sixel_color_rgb_only 0 1 50 50 50 (by decide)).1,
   (sixel_color_rgb_only 0 1 50 50 50 (by decide)).2⟩

/-- `SixelColorPalette::at`: palette lookup reduces the register index
modulo the palette size. -/
def paletteAt (p : List RGBColor) (i : Nat) : RGBColor :=
  p.getD (i % p.length) (RGBColor.mk 0 0 0)

/-- The `SixelImageBuilder` state: configured maximum size, current image
size, RGBA buffer, sixel cursor, aspect ratio numbers, color palette and
current register. -/
structure SixelImageBuilder where
  maxWidth : Nat
  maxHeight : Nat
  width : Nat
  height : Nat
  buffer : Array Nat
  cursorLine : Nat
  cursorColumn : Nat
  aspNum : Nat
  aspDen : Nat
  palette : List RGBColor
  currentColor : Nat

/-- `SixelImageBuilder::write`: store an opaque RGBA pixel at the given
coordinate; a coordinate at or beyond the image width or height is
ignored. -/
def sixelWrite (b : SixelImageBuilder) (line col : Nat) (v : RGBColor) :
    SixelImageBuilder :=
  if line < b.height ∧ col < b.width then
    let base := line * b.width * 4 + col * 4
    { b with buffer :=
        ((((b.buffer.setD base v.red).setD (base + 1) v.green).setD
          (base + 2) v.blue).setD (base + 3) 255) }
  else b

/-- `std::vector::resize`: keep a prefix of the buffer and pad with zeros
up to the new length. -/
def bufferResize (a : Array Nat) (n : Nat) : Array Nat :=
  (a.toList.take n ++ List.replicate (n - a.toList.length) 0).toArray

/-- `SixelImageBuilder::setRaster`: record the aspect numbers, clamp the
announced raster size to the configured maximum image size, and resize the
RGBA buffer to the clamped area. -/
def setRaster (b : SixelImageBuilder) (pan pad w h : Nat) : SixelImageBuilder :=
  { b with
    aspNum := pan, aspDen := pad,
    width := min w b.maxWidth, height := min h b.maxHeight,
    buffer := bufferResize b.buffer (min w b.maxWidth * (min h b.maxHeight) * 4) }

/-- `SixelImageBuilder::render`: paint the six pinned pixels of one sixel
byte at the cursor column when it lies inside the image width, then advance
the column; outside the width nothing happens. -/
def sixelRender (b : SixelImageBuilder) (sixel : Nat) : SixelImageBuilder :=
  if b.cursorColumn < b.width then
    let color := paletteAt b.palette b.currentColor
    let b2 := (List.range 6).foldl
      (fun acc i =>
        if sixel.testBit i then sixelWrite acc (b.cursorLine + i) b.cursorColumn color
        else acc) b
    { b2 with cursorColumn := b2.cursorColumn + 1 }
  else b

/-- `SixelImageBuilder::newline`: back to column 0, advancing six pixel
rows only while another sixel row still fits the image height. -/
def sixelNewline (b : SixelImageBuilder) : SixelImageBuilder :=
  if b.cursorLine + 6 < b.height then
    { b with cursorColumn := 0, cursorLine := b.cursorLine + 6 }
  else { b with cursorColumn := 0 }

/-- The allocation invariant of the builder: the RGBA buffer holds exactly
`width * height` four-byte pixels. -/
def SixelInv (b : SixelImageBuilder) : Prop :=
  b.buffer.size = b.width * b.height * 4

theorem sixelWrite_size (b : SixelImageBuilder) (line col : Nat) (v : RGBColor) :
    (sixelWrite b line col v).buffer.size = b.buffer.size
    ∧ (sixelWrite b line col v).width = b.width
    ∧ (sixelWrite b line col v).height = b.height
    ∧ (sixelWrite b line col v).cursorLine = b.cursorLine
    ∧ (sixelWrite b line col v).cursorColumn = b.cursorColumn := by
  unfold sixelWrite
  split_ifs <;> simp [Array.size_setD]

theorem foldl_preserve {α : Type} (P : α → Prop) (f : α → Nat → α)
    (l : List Nat) (a : α) (ha : P a) (hf : ∀ x i, P x → P (f x i)) :
    P (l.foldl f a) := by
  induction l generalizing a with
  | nil => exact ha
  | cons x rest ih => exact ih _ (hf a x ha)

theorem sixelRender_inv (b : SixelImageBuilder) (s : Nat) (h : SixelInv b) :
    SixelInv (sixelRender b s) := by
  unfold sixelRender
  split_ifs with hcol
  · have hfold :
        (fun acc : SixelImageBuilder =>
          acc.buffer.size = b.buffer.size ∧ acc.width = b.width ∧ acc.height = b.height)
        ((List.range 6).foldl
          (fun acc i =>
            if s.testBit i then
              sixelWrite acc (b.cursorLine + i) b.cursorColumn
                (paletteAt b.palette b.currentColor)
            else acc) b) := by
      refine foldl_preserve
        (fun acc : SixelImageBuilder =>
          acc.buffer.size = b.buffer.size ∧ acc.width = b.width ∧ acc.height = b.height)
        _ _ _ ⟨rfl, rfl, rfl⟩ ?_
      intro x i hx
      by_cases hb : s.testBit i
      · rw [if_pos hb]
        obtain ⟨h1, h2, h3⟩ := hx
        obtain ⟨w1, w2, w3, _, _⟩ := sixelWrite_size x (b.cursorLine + i) b.cursorColumn
          (paletteAt b.palette b.currentColor)
        exact ⟨w1.trans h1, w2.trans h2, w3.trans h3⟩
      · rw [if_neg hb]
        exact hx
    obtain ⟨h1, h2, h3⟩ := hfold
    unfold SixelInv at h ⊢
    simpa [h1, h2, h3] using h
  · exact h

/-- C8: the sixel raster size is clamped to the configured maximum and the
buffer is reallocated to exactly the clamped area; a pixel write at or
beyond the current image width or height leaves the builder untouched,
every in-range write stays inside the allocated RGBA buffer and preserves
the allocation invariant, and rendering a sixel data byte preserves it as
well, so processing continues on a consistent buffer. -/
theorem sixel_no_out_of_bounds (b : SixelImageBuilder) (pan pad w h line col : Nat)
    (v : RGBColor) (s : Nat) :
    (setRaster b pan pad w h).width ≤ b.maxWidth
    ∧ (setRaster b pan pad w h).height ≤ b.maxHeight
    ∧ SixelInv (setRaster b pan pad w h)
    ∧ (b.height ≤ line ∨ b.width ≤ col → sixelWrite b line col v = b)
    ∧ (SixelInv b → SixelInv (sixelWrite b line col v))
    ∧ (SixelInv b → line < b.height → col < b.width →
        line * b.width * 4 + col * 4 + 3 < b.buffer.size)
    ∧ (SixelInv b → SixelInv (sixelRender b s)) := by
  refine ⟨Nat.min_le_right _ _, Nat.min_le_right _ _, ?_, ?_, ?_, ?_, sixelRender_inv b s⟩
  · unfold SixelInv setRaster bufferResize
    simp only [Array.size_toArray, List.length_append, List.length_take,
      List.length_replicate]
    omega
  · intro hout
    unfold sixelWrite
    rw [if_neg (by omega)]
  · intro hinv
    unfold SixelInv at hinv ⊢
    rw [(sixelWrite_size b line col v).1, (sixelWrite_size b line col v).2.1,
      (sixelWrite_size b line col v).2.2.1]
    exact hinv
  · intro hinv hline hcol
    unfold SixelInv at hinv
    rw [hinv]
    calc line * b.width * 4 + col * 4 + 3
        < (line * b.width + col + 1) * 4 := by omega
      _ ≤ (line * b.width + b.width) * 4 := Nat.mul_le_mul_right 4 (by omega)
      _ = (line + 1) * (b.width * 4) := by ring
      _ ≤ b.height * (b.width * 4) :=
          Nat.mul_le_mul_right _ (Nat.succ_le_of_lt hline)
      _ = b.width * b.height * 4 := by ring

/-- Witness for the C8 theorem on a concrete 2×2 builder with a 4×4
maximum: an announced 9×9 raster clamps to 4×4, a write at line 5 is
ignored, and an in-range write keeps the allocation invariant. -/
theorem sixel_no_out_of_bounds_witness :
    (setRaster (SixelImageBuilder.mk 4 4 2 2 (List.replicate 16 0).toArray 0 0 1 1 [] 0)
        1 1 9 9).width ≤ 4
    ∧ sixelWrite (SixelImageBuilder.mk 4 4 2 2 (List.replicate 16 0).toArray 0 0 1 1 [] 0)
        5 0 ⟨1, 2, 3⟩
      = SixelImageBuilder.mk 4 4 2 2 (List.replicate 16 0).toArray 0 0 1 1 [] 0
    ∧ SixelInv (sixelWrite
        (SixelImageBuilder.mk 4 4 2 2 (List.replicate 16 0).toArray 0 0 1 1 [] 0)
        1 1 ⟨1, 2, 3⟩) :=
  ⟨(sixel_no_out_of_bounds _ 1 1 9 9 5 0 ⟨1, 2, 3⟩ 0).1,
   (sixel_no_out_of_bounds _ 1 1 9 9 5 0 ⟨1, 2, 3⟩ 0).2.2.2.1 (Or.inl (by decide)),
   (sixel_no_out_of_bounds _ 1 1 9 9 1 1 ⟨1, 2, 3⟩ 0).2.2.2.2.1
     (by unfold SixelInv; decide)⟩

end Contour
